import Mathlib

/-!
Shallow embedding of the clinica repository fragments under verification:
the command-line plugin loader and dispatcher (clinica/cmdline.py), the
AnatLinear pipeline construction (clinica/pipelines/t1_linear/
anat_linear_pipeline.py), the nipype task helpers (clinica/pipelines/
tasks.py) and the SyN quick registration wrapper (clinica/pipeline/
registration/mri_registration.py).

Python's filesystem, environment and module system are modelled as explicit
records of functions; machine-level side effects (sys.path mutation,
printing, subprocess launches) that no claim observes are dropped, which is
noted at each definition concerned.
-/

namespace Clinica

/-- Boolean test that `pre` is a prefix of `s`, the semantics of Python's
`str.startswith` for ordinary strings, computed on the character lists. -/
def strStartsWith (s pre : String) : Bool :=
  pre.data.isPrefixOf s.data

/-- Boolean test that `post` is a suffix of `s`, the semantics of Python's
`str.endswith` for ordinary strings, computed on the character lists. -/
def strEndsWith (s post : String) : Bool :=
  post.data.isSuffixOf s.data

/-- POSIX `os.path.join(a, b)` for a single extra component: an absolute
`b` replaces `a`; otherwise a separator is inserted unless `a` is empty or
already ends with one. -/
def osPathJoin (a b : String) : String :=
  if strStartsWith b "/" then b
  else if a = "" || strEndsWith a "/" then a ++ b
  else a ++ "/" ++ b

/-- POSIX `os.path.abspath(p)` relative to the working directory `cwd`,
for an already-normalized absolute `cwd` and a plain relative file name
`p` (the only shapes the embedded code uses): an absolute `p` is kept,
a relative one is joined to `cwd`. -/
def osPathAbspath (cwd p : String) : String :=
  if strStartsWith p "/" then p else osPathJoin cwd p

/-! ## The plugin loader (`ClinicaClassLoader`, clinica/cmdline.py) -/

/-- A Python class as the loader inspects it: whether `inspect.isabstract`
holds of it, and whether instantiating it yields an `isinstance` of the
loader's configured base class.  The loader returns the instance it made;
as instantiation is observationally the identity here, the model returns
the class value itself. -/
structure PyClass where
  isAbstract : Bool
  isBaseInstance : Bool
deriving DecidableEq, Repr

/-- A Python module as `inspect.getmembers(py_module, inspect.isclass)`
presents it: its classes in getmembers order. -/
structure PyModule where
  classes : List PyClass
deriving DecidableEq, Repr

/-- The parts of the interpreter state `ClinicaClassLoader` reads:
`os.environ`, `os.listdir`, `os.path.isdir`, and `imp.load_source` (the
module a file contains).  All are total functions; a path that is no
directory simply lists nothing. -/
structure LoaderFS where
  env : String → Option String
  listdir : String → List String
  isdir : String → Bool
  moduleOf : String → PyModule

/-- The constructor arguments of `ClinicaClassLoader`: the environment
variable name, the file-name regular expression (embedded as its Boolean
matching function), and the extra directory component.  The base class
argument is folded into `PyClass.isBaseInstance`. -/
structure ClassLoaderConfig where
  env : String
  reg : String → Bool
  extra_dir : String

/-- Semantics of `re.match(r".*_cli\.py$", name)` for file names without a
newline: the name ends with `_cli.py`. -/
def matchesCliRegex (s : String) : Bool :=
  strEndsWith s "_cli.py"

/-- The default constructor arguments of `ClinicaClassLoader`:
`env='CLINICAPATH'`, `reg=r".*_cli\.py$"`, `extra_dir=''`. -/
def defaultLoaderConfig : ClassLoaderConfig :=
  { env := "CLINICAPATH", reg := matchesCliRegex, extra_dir := "" }

/-- `ClinicaClassLoader.discover_path_with_subdir`: the immediate
subdirectories of `path`, each joined to `path`. -/
def discover_path_with_subdir (fs : LoaderFS) (path : String) : List String :=
  ((fs.listdir path).filter (fun file => fs.isdir (osPathJoin path file))).map
    (fun file => osPathJoin path file)

/-- `ClinicaClassLoader.find_files`: for each directory of `paths`, the
entries whose (base) name matches `reg`, joined to their directory. -/
def find_files (fs : LoaderFS) (paths : List String) (reg : String → Bool) :
    List String :=
  paths.flatMap (fun path =>
    ((fs.listdir path).filter reg).map (fun file => osPathJoin path file))

/-- `ClinicaClassLoader.load_class`: the first member class of the module
that is not abstract and instantiates to an instance of the configured
base class, if any; Python's fall-through `return` of `None` is `none`. -/
def load_class (m : PyModule) : Option PyClass :=
  m.classes.find? (fun c => !c.isAbstract && c.isBaseInstance)

/-- `ClinicaClassLoader.load`: the empty list when the environment variable
is unset or the joined directory is no directory; otherwise one
`load_class` result per file found by `find_files` over the immediate
subdirectories.  The `add_to_python_path` step mutates `sys.path` only and
is dropped. -/
def ClinicaClassLoader.load (fs : LoaderFS) (cfg : ClassLoaderConfig) :
    List (Option PyClass) :=
  match fs.env cfg.env with
  | none => []
  | some root =>
      let clinica_pipelines_path := osPathJoin root cfg.extra_dir
      if fs.isdir clinica_pipelines_path then
        (find_files fs (discover_path_with_subdir fs clinica_pipelines_path)
            cfg.reg).map
          (fun file => load_class (fs.moduleOf file))
      else []

/-- The amended description of `load` spelt out in one expression, written
from the claim's words: scan the immediate subdirectories of the joined
directory, select exactly the entries matching the regular expression, and
return, per matching file, the first non-abstract base-class-conforming
class of its module when one exists and `none` otherwise; the empty list
when the variable is unset or the directory does not exist. -/
def loadDescription (fs : LoaderFS) (cfg : ClassLoaderConfig) :
    List (Option PyClass) :=
  match fs.env cfg.env with
  | none => []
  | some root =>
      let dir := osPathJoin root cfg.extra_dir
      if fs.isdir dir then
        ((fs.listdir dir).filter (fun d => fs.isdir (osPathJoin dir d))).flatMap
          (fun d =>
            ((fs.listdir (osPathJoin dir d)).filter cfg.reg).map (fun f =>
              (fs.moduleOf (osPathJoin (osPathJoin dir d) f)).classes.find?
                (fun c => !c.isAbstract && c.isBaseInstance)))
      else []

/-! ## The command-line dispatcher (`execute`, clinica/cmdline.py) -/

/-- A command object handed to `init_cmdparser_objects`: either one of the
separately constructed CLI objects named in `execute` (identified by its
class name) or a plugin produced by the class loader (the `load_class`
result, possibly `none`). -/
inductive CmdObject where
  | builtin (className : String)
  | plugin (loaded : Option PyClass)
deriving DecidableEq, Repr

/-- The list literal of separately constructed command objects that
`execute` appends to the loaded pipelines for the `run` subcommand, in
source order (the commented-out `DWIPreprocessingUsingPhaseDiffFieldmapCLI`
entry excluded). -/
def fixedRunCommands : List CmdObject :=
  [CmdObject.builtin "T1FreeSurferCLI",
   CmdObject.builtin "T1SPMSegmentationCLI",
   CmdObject.builtin "T1SPMDartelCLI",
   CmdObject.builtin "T1SPMDartel2MNICLI",
   CmdObject.builtin "T1SPMFullPrepCLI",
   CmdObject.builtin "DWIPreprocessingUsingT1CLI",
   CmdObject.builtin "DWIProcessingCLI",
   CmdObject.builtin "fMRIPreprocessingCLI",
   CmdObject.builtin "StatisticsSurfstatCLI",
   CmdObject.builtin "CmdParserMachineLearningVBLinearSVM",
   CmdObject.builtin "CmdParserMachineLearningSVMRB",
   CmdObject.builtin "PETPreprocessVolumeCLI"]

/-- The loader configuration `execute` uses for the `run` subcommand:
`ClinicaClassLoader(baseclass=CmdParser, extra_dir="pipelines")` (the
environment variable and regular expression keep their defaults). -/
def runLoaderConfig : ClassLoaderConfig :=
  { env := "CLINICAPATH", reg := matchesCliRegex, extra_dir := "pipelines" }

/-- What `execute` registers on its argument parser: the subcommand names
handed to `sub_parser.add_parser`, in source order, and the command-object
lists handed to `init_cmdparser_objects` for the `run`, `convert` and
`iotools` subcommands (`init_cmdparser_objects` itself lives outside src/
and only attaches each object of the given list to the subparser). -/
structure ExecuteParser where
  subcommands : List String
  runDispatch : List CmdObject
  convertDispatch : List CmdObject
  iotoolsDispatch : List CmdObject
deriving DecidableEq, Repr

/-- The parser-building phase of `execute`, as a function of the
interpreter state the class loader reads. -/
def buildExecuteParser (fs : LoaderFS) : ExecuteParser :=
  { subcommands :=
      ["visualize", "run", "pipeline-list", "convert", "generate", "iotools"],
    runDispatch :=
      (ClinicaClassLoader.load fs runLoaderConfig).map CmdObject.plugin ++
        fixedRunCommands,
    convertDispatch :=
      [CmdObject.builtin "AiblToBidsCLI",
       CmdObject.builtin "AdniToBidsCLI",
       CmdObject.builtin "OasisToBidsCLI"],
    iotoolsDispatch :=
      [CmdObject.builtin "CmdParserSubsSess",
       CmdObject.builtin "CmdParserMergeTsv",
       CmdObject.builtin "CmdParserMissingModalities"] }

/-! ## Workflow loading and visualization (clinica/cmdline.py) -/

/-- Modelled from the spec: the pickled `ClinicaWorkflow` object (its class
lives outside src/).  Per the spec it is a plain object carrying a `data`
dictionary (whose `'visualize'` entry, when present, is the
program/arguments/matches triple) and a base directory; as a plain Python
object it is truthy, so `Option` absence below stands exactly for the
`False` sentinel of `load_conf`. -/
structure ClinicaWorkflow where
  data : String → Option (String × String × String)
  base_dir : String

/-- The parts of the interpreter state `load_conf` reads: the working
directory, `os.path.isdir`, and for each directory the unpickled workflow
of its `clinica.pkl` file — `none` when `os.path.isfile` fails on
`os.path.join(dir, "clinica.pkl")`. -/
structure ConfFS where
  cwd : String
  isdir : String → Bool
  pkl : String → Option ClinicaWorkflow

/-- Result of an operation that may terminate the interpreter: either
`exit(code)` after printing `msg`, or a returned value. -/
inductive ExitOrValue (α : Type) where
  | exited (code : Int) (msg : String)
  | value (v : α)

/-- The inner `load(path)` of `load_conf`: the unpickled `clinica.pkl` of
`path` when that file exists, else the `False` sentinel (`none`). -/
def loadConfLoad (fs : ConfFS) (path : String) : Option ClinicaWorkflow :=
  fs.pkl path

/-- `load_conf(args)`: load from the working directory when `args` is
empty, from `args[0]` when that is a directory; when nothing (truthy) was
loaded, print `No <clinica.pkl> file found!` and `exit(0)`, else return
the workflow. -/
def load_conf (fs : ConfFS) (args : List String) : ExitOrValue ClinicaWorkflow :=
  let wk : Option ClinicaWorkflow :=
    match args with
    | [] => loadConfLoad fs fs.cwd
    | a :: _ => if fs.isdir a then loadConfLoad fs a else none
  match wk with
  | none => ExitOrValue.exited 0 "No <clinica.pkl> file found!"
  | some w => ExitOrValue.value w

/-- The directory probe `load_conf` performs before testing its result:
the working directory's when `args` is empty, `args[0]`'s when that is a
directory, and the `False` sentinel otherwise. -/
def loadConfSelected (fs : ConfFS) (args : List String) :
    Option ClinicaWorkflow :=
  match args with
  | [] => loadConfLoad fs fs.cwd
  | a :: _ => if fs.isdir a then loadConfLoad fs a else none

/-- `visualize(clinicaWorkflow, ids, rebase)` up to its effectful tail:
when the workflow's `data` dictionary has no `'visualize'` key, print
`No visualization was defined` and `exit(0)`; otherwise the function goes
on to launch one GUI subprocess per id (side effects outside the model)
and returns `None`. -/
def visualize (w : ClinicaWorkflow) (ids : List String)
    (rebase : Option String) : ExitOrValue Unit :=
  match w.data "visualize" with
  | none => ExitOrValue.exited 0 "No visualization was defined"
  | some _ =>
      let _ := ids
      let _ := rebase
      ExitOrValue.value ()

/-! ## The post-parse phase of `execute` (clinica/cmdline.py) -/

/-- The parsed namespace as the tail of `execute` reads it: whether a
subcommand bound a `func` attribute (and which subcommand function it is),
and the global `verbose` flag. -/
structure ParsedArgs where
  func : Option String
  verbose : Bool
deriving DecidableEq, Repr

/-- How the tail of `execute` ends: terminating with an exit code, raising
`ValueError`, or dispatching `args.func(args)`. -/
inductive ExecOutcome where
  | exit (code : Int)
  | valueError (msg : String)
  | dispatch (funcName : String)
deriving DecidableEq, Repr

/-- Python's `repr` of a list of strings containing no quote or escape,
as `'%s' % unknown` formats the unknown-argument list. -/
def pyStrListRepr (l : List String) : String :=
  "[" ++ String.intercalate ", " (l.map (fun s => "'" ++ s ++ "'")) ++ "]"

/-- The tail of `execute` after `parse_known_args`: a parse failure
(`SystemExit` or any exception in the `try` block) becomes `exit(-1)`;
a successful parse with unrecognized arguments raises
`ValueError('Unknown flag detected: %s' % unknown)`; a parse with no
`func` attribute prints help and exits `-1`; otherwise `args.func(args)`
is dispatched. -/
def executeDispatch (parseResult : Option (ParsedArgs × List String)) :
    ExecOutcome :=
  match parseResult with
  | none => ExecOutcome.exit (-1)
  | some (args, unknown) =>
      if unknown ≠ [] then
        ExecOutcome.valueError ("Unknown flag detected: " ++ pyStrListRepr unknown)
      else
        match args.func with
        | none => ExecOutcome.exit (-1)
        | some f => ExecOutcome.dispatch f

/-! ## The AnatLinear pipeline core nodes
(clinica/pipelines/t1_linear/anat_linear_pipeline.py, `_build_core_nodes`) -/

/-- The nipype nodes `_build_core_nodes` wires, plus the pipeline's input
and output nodes. -/
inductive AnatNode where
  | inputNode
  | imageIdNode
  | n4biascorrection
  | antsRegistration
  | cropnifti
  | printEndMessage
  | outputNode
deriving DecidableEq, Repr

/-- One `self.connect` entry: source node and field, destination node and
field. -/
structure Edge where
  src : AnatNode
  srcPort : String
  dst : AnatNode
  dstPort : String
deriving DecidableEq, Repr

/-- The connections `_build_core_nodes` makes, in source order, as a
function of the truthiness of `self.parameters.get("uncropped_image")`. -/
def coreEdges (uncropped_image : Bool) : List Edge :=
  [⟨AnatNode.inputNode, "anat", AnatNode.imageIdNode, "filename"⟩,
   ⟨AnatNode.inputNode, "anat", AnatNode.n4biascorrection, "input_image"⟩,
   ⟨AnatNode.n4biascorrection, "output_image",
     AnatNode.antsRegistration, "moving_image"⟩,
   ⟨AnatNode.imageIdNode, "image_id",
     AnatNode.antsRegistration, "output_transform_prefix"⟩,
   ⟨AnatNode.imageIdNode, "image_id", AnatNode.outputNode, "image_id"⟩,
   ⟨AnatNode.antsRegistration, "warped_image",
     AnatNode.outputNode, "outfile_reg"⟩,
   ⟨AnatNode.inputNode, "anat", AnatNode.printEndMessage, "anat"⟩] ++
  (if !uncropped_image then
    [⟨AnatNode.antsRegistration, "warped_image",
       AnatNode.cropnifti, "input_image"⟩,
     ⟨AnatNode.cropnifti, "output_img", AnatNode.outputNode, "outfile_crop"⟩,
     ⟨AnatNode.cropnifti, "output_img",
       AnatNode.printEndMessage, "final_file"⟩]
   else
    [⟨AnatNode.antsRegistration, "warped_image",
       AnatNode.printEndMessage, "final_file"⟩])

/-- The inputs set on the `n4biascorrection` node:
`ants.N4BiasFieldCorrection(dimension=3, save_bias=True)` and the
conditional `bspline_fitting_distance`. -/
structure N4Inputs where
  dimension : Nat
  save_bias : Bool
  bspline_fitting_distance : Nat
deriving DecidableEq, Repr

/-- The `n4biascorrection` node of `_build_core_nodes` as a function of
the pipeline name: `bspline_fitting_distance` is `600` when the name is
`t1-linear` and `100` otherwise. -/
def n4BiasCorrectionInputs (name : String) : N4Inputs :=
  { dimension := 3,
    save_bias := true,
    bspline_fitting_distance := if name = "t1-linear" then 600 else 100 }

/-- The inputs set on the `antsRegistration` node in `_build_core_nodes`.
Decimal literals are embedded as the rationals they denote; the two
`(0.1,)` transform-parameter tuples are lists. -/
structure AntsRegistrationInputs where
  fixed_image : String
  interpolation : String
  dimension : Nat
  winsorize_lower_quantile : ℚ
  winsorize_upper_quantile : ℚ
  transforms : List String
  transform_parameters : List (List ℚ)
  metric : List String
  metric_weight : List Nat
  radius_or_number_of_bins : List Nat
  sampling_strategy : List String
  sampling_percentage : List ℚ
  number_of_iterations : List (List Nat)
  convergence_threshold : List ℚ
  convergence_window_size : List Nat
  smoothing_sigmas : List (List Nat)
  sigma_units : List String
  shrink_factors : List (List Nat)
  use_histogram_matching : Bool
  output_warped_image : Bool
  random_seed : Option Nat
deriving DecidableEq, Repr

/-- The `antsRegistration` node of `_build_core_nodes`: all inputs are the
source's literals except `fixed_image` (the reference template set by
`_build_input_node`) and `random_seed`, set only when
`self.parameters.get("random_seed", None)` is truthy (the walrus `if`
skips both an absent and a zero seed). -/
def antsRegistrationInputs (ref_template : String)
    (random_seed_param : Option Nat) : AntsRegistrationInputs :=
  { fixed_image := ref_template,
    interpolation := "Linear",
    dimension := 3,
    winsorize_lower_quantile := 0.005,
    winsorize_upper_quantile := 0.995,
    transforms := ["Rigid", "Affine"],
    transform_parameters := [[0.1], [0.1]],
    metric := ["MI", "MI"],
    metric_weight := [1, 1],
    radius_or_number_of_bins := [32, 32],
    sampling_strategy := ["Regular", "Regular"],
    sampling_percentage := [0.25, 0.25],
    number_of_iterations := [[40, 0, 0, 0], [20, 0, 0, 0]],
    convergence_threshold := [0.000001, 0.000001],
    convergence_window_size := [10, 10],
    smoothing_sigmas := [[3, 2, 1, 0], [3, 2, 1, 0]],
    sigma_units := ["vox", "vox"],
    shrink_factors := [[8, 4, 2, 1], [8, 4, 2, 1]],
    use_histogram_matching := false,
    output_warped_image := true,
    random_seed :=
      match random_seed_param with
      | none => none
      | some s => if s ≠ 0 then some s else none }

/-- Everything `_build_core_nodes` configures that the claims observe:
the two configured node interfaces, the crop node's `output_path`
(set to the pipeline's base directory), and the connection list. -/
structure CoreNodes where
  n4 : N4Inputs
  antsReg : AntsRegistrationInputs
  cropOutputPath : String
  edges : List Edge
deriving DecidableEq, Repr

/-- `_build_core_nodes` as a function of the pipeline name, the reference
template, the base directory, and the two parameters it reads. -/
def buildCoreNodes (name ref_template base_dir : String)
    (uncropped_image : Bool) (random_seed : Option Nat) : CoreNodes :=
  { n4 := n4BiasCorrectionInputs name,
    antsReg := antsRegistrationInputs ref_template random_seed,
    cropOutputPath := base_dir,
    edges := coreEdges uncropped_image }

/-! ## The AnatLinear input node
(clinica/pipelines/t1_linear/anat_linear_pipeline.py, `_build_input_node`) -/

/-- Characters of `l` strictly before its first underscore. -/
def takeUntilUnderscore : List Char → List Char
  | [] => []
  | c :: cs => if c = '_' then [] else c :: takeUntilUnderscore cs

/-- Characters of `l` strictly after its first underscore (all of `l`
removed when it has none). -/
def dropThroughUnderscore : List Char → List Char
  | [] => []
  | c :: cs => if c = '_' then cs else dropThroughUnderscore cs

/-- The participant part of an image id `"<participant>_<session>"`: the
prefix before the first underscore. -/
def participantOf (imageId : String) : String :=
  String.mk (takeUntilUnderscore imageId.data)

/-- The session part of an image id `"<participant>_<session>"`: the
suffix after the first underscore. -/
def sessionOf (imageId : String) : String :=
  String.mk (dropThroughUnderscore imageId.data)

/-- The image id `_build_input_node` forms from a subject/session pair:
`f"{p_id}_{s_id}"`. -/
def mkImageId (participant session : String) : String :=
  participant ++ "_" ++ session

/-- Modelled from the spec: `extract_subjects_sessions_from_filename`
(clinica.utils.filemanip, outside src/) recovers, from each image id
`"<participant>_<session>"`, its participant and session parts — the
inverse of the `f"{p_id}_{s_id}"` construction for underscore-free
participant labels. -/
def extract_subjects_sessions_from_filename (ids : List String) :
    List String × List String :=
  (ids.map participantOf, ids.map sessionOf)

/-- Modelled from the spec: `clinica_file_filter` (clinica.utils.inputs,
outside src/) keeps exactly the subject/session pairs for which the BIDS
query finds an anat image (here the predicate `hasFile`), preserving
their order, and returns the filtered subjects and sessions lists. -/
def clinica_file_filter (hasFile : String → String → Bool)
    (subjects sessions : List String) : List String × List String :=
  let pairs := (subjects.zip sessions).filter (fun p => hasFile p.1 p.2)
  (pairs.map Prod.fst, pairs.map Prod.snd)

/-- The reassignments of `self.subjects, self.sessions` in
`_build_input_node`, as a function of the already-processed image ids
(the `get_processed_images` result, whose own reading of the CAPS
directory happens outside src/) and of the anat-file predicate: when at
least one processed id was found, the pairs are rebuilt from
`list(set(input_ids) - set(processed_ids))` — embedded as
deduplication of the ids filtered against the processed ones, the
invariants proved below not depending on the iteration order of Python's
set — and in every case `clinica_file_filter` then keeps the pairs whose
anat image exists. -/
def buildInputNodeSubjectsSessions (processedIds : List String)
    (hasFile : String → String → Bool) (subjects sessions : List String) :
    List String × List String :=
  let step1 : List String × List String :=
    if processedIds.length > 0 then
      let input_ids := (subjects.zip sessions).map (fun p => mkImageId p.1 p.2)
      let to_process_ids :=
        (input_ids.filter (fun i => decide (i ∉ processedIds))).dedup
      extract_subjects_sessions_from_filename to_process_ids
    else (subjects, sessions)
  clinica_file_filter hasFile step1.1 step1.2

/-! ## Task helpers (clinica/pipelines/tasks.py) -/

/-- The hard-coded CAPS directory of `get_rigid`. -/
def CAPSr : String :=
  "/Users/alice.joubert/clinicaQC/data/BE_method_evaluation/ADNI/CAPS_r"

/-- Replacement of every non-overlapping occurrence of `needle` in the
list, left to right, with `fuel` bounding the recursion (any
`fuel > length` is enough for a nonempty `needle`). -/
def replaceCharsAux (needle repl : List Char) : Nat → List Char → List Char
  | 0, s => s
  | _ + 1, [] => []
  | fuel + 1, c :: cs =>
      if needle.isPrefixOf (c :: cs) then
        repl ++ replaceCharsAux needle repl fuel ((c :: cs).drop needle.length)
      else c :: replaceCharsAux needle repl fuel cs

/-- Python `s.replace(needle, repl)` for a nonempty `needle`: every
non-overlapping occurrence, scanned left to right, is replaced. -/
def pyReplace (s needle repl : String) : String :=
  String.mk (replaceCharsAux needle.data repl.data (s.data.length + 1) s.data)

/-- POSIX `Path(p).name`: the part after the last slash, trailing slashes
disregarded (so `Path("a/b/").name` is `"b"` and `Path("/").name` is
empty). -/
def pathName (p : String) : String :=
  String.mk
    (((p.data.reverse.dropWhile (fun c => c = '/')).takeWhile
        (fun c => c ≠ '/')).reverse)

/-- Whether `needle` occurs as a contiguous run inside `haystack`; used
to build concrete `re.search` oracles for literal (metacharacter-free)
pattern fragments. -/
def charsInfix (needle haystack : List Char) : Bool :=
  haystack.tails.any (fun t => needle.isPrefixOf t)

/-- The parts of the interpreter state `get_rigid` reads: the `.mat`
files `Path(dir).rglob("*.mat")` yields under a directory, and the
`re.search(pattern, str(path))` oracle (`re` is the Python standard
library, embedded as its Boolean result). -/
structure RigidFS where
  rglobMat : String → List String
  search : String → String → Bool

/-- The pattern `get_rigid` builds from its file name:
`f"{Path(fname).name.replace('_T1w', '')}.*.mat"`. -/
def rigidPattern (fname : String) : String :=
  pyReplace (pathName fname) "_T1w" "" ++ ".*.mat"

/-- `get_rigid(fname)`: filter the `.mat` files under `CAPSr` through
`re.search` with `rigidPattern`; return the match when it is unique,
otherwise raise `ValueError` (carrying, as the message formats them, the
matched list and the pattern). -/
def get_rigid (fs : RigidFS) (fname : String) :
    Except (List String × String) String :=
  let pattern := rigidPattern fname
  let mat := (fs.rglobMat CAPSr).filter (fun p => fs.search pattern p)
  match mat with
  | [m] => Except.ok m
  | l => Except.error (l, pattern)

/-! ## SyN quick registration
(clinica/pipeline/registration/mri_registration.py) -/

/-- The body of `antsRegistrationSyNQuick(fixe_image, moving_image)`,
made explicit in the working directory it resolves against: the five
output paths are absolutized before the external
`antsRegistrationSyNQuick.sh` subprocess is launched (a side effect whose
outcome the return value ignores), and returned in source order.  The
enclosing module itself fails to parse — its docstring is closed by four
quotes, leaving an unterminated string literal — so in the repository this
body is unreachable. -/
def antsRegistrationSyNQuick (cwd fixe_image moving_image : String) :
    String × String × String × String × String :=
  let image_warped := osPathAbspath cwd "SyN_QuickWarped.nii.gz"
  let affine_matrix := osPathAbspath cwd "SyN_Quick0GenericAffine.mat"
  let warp := osPathAbspath cwd "SyN_Quick1Warp.nii.gz"
  let inverse_warped := osPathAbspath cwd "SyN_QuickInverseWarped.nii.gz"
  let inverse_warp := osPathAbspath cwd "SyN_Quick1InverseWarp.nii.gz"
  let _ := fixe_image
  let _ := moving_image
  (image_warped, affine_matrix, warp, inverse_warped, inverse_warp)

/-! ## Concrete interpreter states used as counterexamples and witnesses -/

/-- A state where `CLINICAPATH=/plug`, the joined directory holds one
subdirectory `sub` with one matching file `empty_cli.py`, and that file's
module has no class at all. -/
def fsNoClass : LoaderFS :=
  { env := fun v => if v = "CLINICAPATH" then some "/plug" else none,
    listdir := fun p =>
      if p = "/plug/" then ["sub"]
      else if p = "/plug/sub" then ["empty_cli.py"] else [],
    isdir := fun p => p = "/plug/" || p = "/plug/sub",
    moduleOf := fun _ => ⟨[]⟩ }

/-- A state where `CLINICAPATH=/plug` and `/plug/pipelines/sub/my_cli.py`
holds one concrete class that instantiates to a base-class instance. -/
def fsOnePlugin : LoaderFS :=
  { env := fun v => if v = "CLINICAPATH" then some "/plug" else none,
    listdir := fun p =>
      if p = "/plug/pipelines" then ["sub"]
      else if p = "/plug/pipelines/sub" then ["my_cli.py"] else [],
    isdir := fun p => p = "/plug/pipelines" || p = "/plug/pipelines/sub",
    moduleOf := fun _ => ⟨[⟨false, true⟩]⟩ }

/-- A state with no environment variables and an empty filesystem. -/
def fsEmptyEnv : LoaderFS :=
  { env := fun _ => none,
    listdir := fun _ => [],
    isdir := fun _ => false,
    moduleOf := fun _ => ⟨[]⟩ }

/-! ## C1 -/

/-- C1 counterexample: in the state `fsNoClass` the environment variable
is set, the joined directory exists and exactly one file matches the
naming convention, yet `load` returns `[none]` — its entry is not
obtained by instantiating a non-abstract class that is an instance of the
configured base class, contrary to the claim as stated. -/
theorem C1_counterexample :
    ClinicaClassLoader.load fsNoClass defaultLoaderConfig = [none] ∧
    ¬ ((ClinicaClassLoader.load fsNoClass defaultLoaderConfig).all
        (fun e => e.any (fun c => !c.isAbstract && c.isBaseInstance)) = true) := by
  decide

/-- C1 (amended): for every interpreter state and loader configuration,
`ClinicaClassLoader.load` returns exactly the list described by
`loadDescription`: when the environment variable is set and the joined
directory exists, one entry per file of an immediate subdirectory whose
basename matches the regular expression, that entry being the first
non-abstract base-class-conforming class of the file's module when one
exists and `none` otherwise; the empty list when the variable is unset or
the directory does not exist. -/
theorem C1_load_matches_description (fs : LoaderFS) (cfg : ClassLoaderConfig) :
    ClinicaClassLoader.load fs cfg = loadDescription fs cfg := by
  unfold ClinicaClassLoader.load loadDescription
  cases fs.env cfg.env with
  | none => rfl
  | some root =>
      by_cases h : fs.isdir (osPathJoin root cfg.extra_dir) = true
      · simp only [h, if_true]
        simp [find_files, discover_path_with_subdir, load_class,
          List.map_flatMap, List.flatMap_map, List.map_map, Function.comp_def]
      · simp only [Bool.not_eq_true] at h
        simp [h]

/-! ## C8 -/

/-- C8: whenever a file of an immediate subdirectory matches the naming
convention and its module contains no non-abstract class instantiating to
a base-class instance, `load_class` returns `none` and `load` returns a
list containing that `none`; so the list `load` returns is not guaranteed
to contain only base-class instances. -/
theorem C8_load_may_contain_none (fs : LoaderFS) (cfg : ClassLoaderConfig)
    (root dir file : String)
    (henv : fs.env cfg.env = some root)
    (hdir : fs.isdir (osPathJoin root cfg.extra_dir) = true)
    (hsub : dir ∈ discover_path_with_subdir fs (osPathJoin root cfg.extra_dir))
    (hfile : file ∈ fs.listdir dir)
    (hreg : cfg.reg file = true)
    (hnoclass : ∀ c ∈ (fs.moduleOf (osPathJoin dir file)).classes,
        c.isAbstract = true ∨ c.isBaseInstance = false) :
    load_class (fs.moduleOf (osPathJoin dir file)) = none ∧
    none ∈ ClinicaClassLoader.load fs cfg := by
  have hlc : load_class (fs.moduleOf (osPathJoin dir file)) = none := by
    apply List.find?_eq_none.2
    intro c hc
    rcases hnoclass c hc with h | h <;> simp [h]
  refine ⟨hlc, ?_⟩
  unfold ClinicaClassLoader.load
  rw [henv]
  simp only [hdir, if_true]
  rw [← hlc]
  apply List.mem_map_of_mem
  unfold find_files
  apply List.mem_flatMap.2
  exact ⟨dir, hsub, List.mem_map_of_mem _ (List.mem_filter.2 ⟨hfile, hreg⟩)⟩

/-- C8 witness: in the state `fsNoClass`, the module of
`/plug/sub/empty_cli.py` yields `none` from `load_class` and `load`
returns a list containing `none`. -/
theorem C8_witness :
    load_class (fsNoClass.moduleOf (osPathJoin "/plug/sub" "empty_cli.py")) = none ∧
    none ∈ ClinicaClassLoader.load fsNoClass defaultLoaderConfig :=
  C8_load_may_contain_none fsNoClass defaultLoaderConfig "/plug" "/plug/sub"
    "empty_cli.py" (by decide) (by decide) (by decide) (by decide) (by decide)
    (by decide)

/-! ## C4 -/

/-- C4 counterexample: the list of command objects the `run` subcommand
dispatches to is not fixed — it differs between the interpreter states
`fsOnePlugin` (where `CLINICAPATH` provides one plugin) and `fsEmptyEnv`
(where it is unset), gaining a loaded entry before the separately
constructed objects. -/
theorem C4_counterexample :
    (buildExecuteParser fsOnePlugin).runDispatch ≠
      (buildExecuteParser fsEmptyEnv).runDispatch ∧
    (buildExecuteParser fsEmptyEnv).runDispatch = fixedRunCommands ∧
    (buildExecuteParser fsOnePlugin).runDispatch =
      CmdObject.plugin (some ⟨false, true⟩) :: fixedRunCommands := by
  decide

/-- C4 (amended): `execute` registers exactly the subcommands
`visualize`, `run`, `pipeline-list`, `convert`, `generate` and `iotools`;
`convert` and `iotools` dispatch via `init_cmdparser_objects` to fixed
lists of three separately constructed command objects each, while `run`
dispatches to the commands loaded from `CLINICAPATH/pipelines` followed by
a fixed list of twelve separately constructed command objects. -/
theorem C4_execute_registration (fs : LoaderFS) :
    (buildExecuteParser fs).subcommands =
      ["visualize", "run", "pipeline-list", "convert", "generate", "iotools"] ∧
    (buildExecuteParser fs).runDispatch =
      (ClinicaClassLoader.load fs runLoaderConfig).map CmdObject.plugin ++
        fixedRunCommands ∧
    fixedRunCommands.length = 12 ∧
    (buildExecuteParser fs).convertDispatch =
      [CmdObject.builtin "AiblToBidsCLI",
       CmdObject.builtin "AdniToBidsCLI",
       CmdObject.builtin "OasisToBidsCLI"] ∧
    (buildExecuteParser fs).iotoolsDispatch =
      [CmdObject.builtin "CmdParserSubsSess",
       CmdObject.builtin "CmdParserMergeTsv",
       CmdObject.builtin "CmdParserMissingModalities"] :=
  ⟨rfl, rfl, rfl, rfl, rfl⟩

/-! ## C2 -/

/-- C2: for every AnatLinear pipeline instance, the connection list of
`_build_core_nodes` depends only on the `uncropped_image` parameter; in
both cases the input anat image feeds the N4 node and the N4 output is
the moving image of the registration node; when `uncropped_image` is
absent or falsy the warped image feeds the crop node, whose output is the
pipeline's `outfile_crop` and the final file; when it is set no
connection touches the crop node and the warped image is the final
file. -/
theorem C2_core_node_wiring :
    (∀ name ref_template base_dir uncropped random_seed,
      (buildCoreNodes name ref_template base_dir uncropped random_seed).edges =
        coreEdges uncropped) ∧
    (∀ u,
      Edge.mk AnatNode.inputNode "anat"
          AnatNode.n4biascorrection "input_image" ∈ coreEdges u ∧
      Edge.mk AnatNode.n4biascorrection "output_image"
          AnatNode.antsRegistration "moving_image" ∈ coreEdges u) ∧
    (Edge.mk AnatNode.antsRegistration "warped_image"
        AnatNode.cropnifti "input_image" ∈ coreEdges false ∧
     Edge.mk AnatNode.cropnifti "output_img"
        AnatNode.outputNode "outfile_crop" ∈ coreEdges false ∧
     Edge.mk AnatNode.cropnifti "output_img"
        AnatNode.printEndMessage "final_file" ∈ coreEdges false) ∧
    ((coreEdges true).all
        (fun e => !(e.src = AnatNode.cropnifti || e.dst = AnatNode.cropnifti)) =
          true ∧
     Edge.mk AnatNode.antsRegistration "warped_image"
        AnatNode.printEndMessage "final_file" ∈ coreEdges true) := by
  refine ⟨fun _ _ _ _ _ => rfl, fun u => ?_, by decide, by decide⟩
  cases u <;> exact ⟨by decide, by decide⟩

/-! ## C3 -/

/-- C3: the registration node of `_build_core_nodes` carries the literal
parameter table of the claim — transforms `Rigid` then `Affine`, metric
`MI` with weight `1` and `32` bins for both, winsorize quantiles `0.005`
and `0.995`, regular sampling at `0.25`, smoothing sigmas `[3,2,1,0]` and
shrink factors `[8,4,2,1]` for both, linear interpolation — and replacing
only the fixed image and the random seed of one configuration yields any
other, so every remaining setting is input-independent; the N4 node's
bspline fitting distance is `600` for the pipeline name `t1-linear` and
`100` for every other name. -/
theorem C3_registration_parameter_table :
    (∀ name ref_template base_dir uncropped random_seed,
      (buildCoreNodes name ref_template base_dir uncropped random_seed).antsReg =
        antsRegistrationInputs ref_template random_seed ∧
      (buildCoreNodes name ref_template base_dir uncropped random_seed).n4 =
        n4BiasCorrectionInputs name) ∧
    (∀ ref seed,
      (antsRegistrationInputs ref seed).transforms = ["Rigid", "Affine"] ∧
      (antsRegistrationInputs ref seed).metric = ["MI", "MI"] ∧
      (antsRegistrationInputs ref seed).metric_weight = [1, 1] ∧
      (antsRegistrationInputs ref seed).radius_or_number_of_bins = [32, 32] ∧
      (antsRegistrationInputs ref seed).winsorize_lower_quantile = 0.005 ∧
      (antsRegistrationInputs ref seed).winsorize_upper_quantile = 0.995 ∧
      (antsRegistrationInputs ref seed).sampling_strategy =
        ["Regular", "Regular"] ∧
      (antsRegistrationInputs ref seed).sampling_percentage = [0.25, 0.25] ∧
      (antsRegistrationInputs ref seed).smoothing_sigmas =
        [[3, 2, 1, 0], [3, 2, 1, 0]] ∧
      (antsRegistrationInputs ref seed).shrink_factors =
        [[8, 4, 2, 1], [8, 4, 2, 1]] ∧
      (antsRegistrationInputs ref seed).interpolation = "Linear" ∧
      (antsRegistrationInputs ref seed).fixed_image = ref) ∧
    (∀ ref₁ seed₁ ref₂ seed₂,
      { antsRegistrationInputs ref₁ seed₁ with
          fixed_image := (antsRegistrationInputs ref₂ seed₂).fixed_image,
          random_seed := (antsRegistrationInputs ref₂ seed₂).random_seed } =
        antsRegistrationInputs ref₂ seed₂) ∧
    (n4BiasCorrectionInputs "t1-linear").bspline_fitting_distance = 600 ∧
    (∀ name, name ≠ "t1-linear" →
      (n4BiasCorrectionInputs name).bspline_fitting_distance = 100) := by
  refine ⟨fun _ _ _ _ _ => ⟨rfl, rfl⟩,
    fun ref seed => ⟨rfl, rfl, rfl, rfl, rfl, rfl, rfl, rfl, rfl, rfl, rfl, rfl⟩,
    fun _ _ _ _ => rfl, rfl, fun name h => ?_⟩
  simp [n4BiasCorrectionInputs, h]

/-! ## C5 -/

/-- C5: when no `clinica.pkl` is loaded from the directory its arguments
select, `load_conf` prints `No <clinica.pkl> file found!` and terminates
with exit code `0` rather than raising or returning an error value, and
otherwise returns the unpickled workflow; and when the workflow's data
dictionary has no `visualize` key, `visualize` prints
`No visualization was defined` and terminates with exit code `0`. -/
theorem C5_missing_input_exits_zero (fs : ConfFS) (args : List String)
    (w : ClinicaWorkflow) (ids : List String) (rebase : Option String) :
    (loadConfSelected fs args = none →
      load_conf fs args =
        ExitOrValue.exited 0 "No <clinica.pkl> file found!") ∧
    (∀ w0, loadConfSelected fs args = some w0 →
      load_conf fs args = ExitOrValue.value w0) ∧
    (w.data "visualize" = none →
      visualize w ids rebase =
        ExitOrValue.exited 0 "No visualization was defined") := by
  have hsel : load_conf fs args =
      match loadConfSelected fs args with
      | none => ExitOrValue.exited 0 "No <clinica.pkl> file found!"
      | some w0 => ExitOrValue.value w0 := by
    unfold load_conf loadConfSelected
    rfl
  refine ⟨fun h => ?_, fun w0 h => ?_, fun h => ?_⟩
  · rw [hsel, h]
  · rw [hsel, h]
  · unfold visualize
    rw [h]

/-- C5 witness: in a concrete state whose only directory `/study` holds a
pickled workflow with no `visualize` entry, `load_conf` on an empty
argument list (working directory `/nowhere`, holding no file) exits with
code `0` and the quoted message, `load_conf ["/study"]` returns the
workflow, and `visualize` on it exits with code `0` and its message. -/
theorem C5_witness :
    (loadConfSelected
        ⟨"/nowhere", fun p => p = "/study",
          fun p => if p = "/study" then some ⟨fun _ => none, "/study"⟩ else none⟩
        [] = none →
      load_conf
        ⟨"/nowhere", fun p => p = "/study",
          fun p => if p = "/study" then some ⟨fun _ => none, "/study"⟩ else none⟩
        [] = ExitOrValue.exited 0 "No <clinica.pkl> file found!") ∧
    (∀ w0, loadConfSelected
        ⟨"/nowhere", fun p => p = "/study",
          fun p => if p = "/study" then some ⟨fun _ => none, "/study"⟩ else none⟩
        [] = some w0 →
      load_conf
        ⟨"/nowhere", fun p => p = "/study",
          fun p => if p = "/study" then some ⟨fun _ => none, "/study"⟩ else none⟩
        [] = ExitOrValue.value w0) ∧
    ((⟨fun _ => none, "/study"⟩ : ClinicaWorkflow).data "visualize" = none →
      visualize ⟨fun _ => none, "/study"⟩ [] none =
        ExitOrValue.exited 0 "No visualization was defined") :=
  C5_missing_input_exits_zero _ [] ⟨fun _ => none, "/study"⟩ [] none

/-! ## C6 -/

/-- C6: whenever `parse_known_args` succeeds with a non-empty list of
unrecognized arguments, the tail of `execute` raises
`ValueError('Unknown flag detected: ...')` naming them, and dispatches no
subcommand function; a parse failure is not raised but becomes
`exit(-1)`. -/
theorem C6_unknown_flags_raise (args : ParsedArgs) (unknown : List String) :
    (unknown ≠ [] →
      executeDispatch (some (args, unknown)) =
        ExecOutcome.valueError
          ("Unknown flag detected: " ++ pyStrListRepr unknown) ∧
      ∀ f, executeDispatch (some (args, unknown)) ≠ ExecOutcome.dispatch f) ∧
    executeDispatch none = ExecOutcome.exit (-1) := by
  refine ⟨fun h => ?_, rfl⟩
  have : executeDispatch (some (args, unknown)) =
      ExecOutcome.valueError
        ("Unknown flag detected: " ++ pyStrListRepr unknown) := by
    simp [executeDispatch, h]
  exact ⟨this, fun f hf => by rw [this] at hf; exact ExecOutcome.noConfusion hf⟩

/-- C6 witness: parsing that leaves the unknown flag `--frobnicate` ends
in the `ValueError` naming it, with no dispatch, and a parse failure ends
in `exit(-1)`. -/
theorem C6_witness :
    (executeDispatch (some (⟨some "run", false⟩, ["--frobnicate"])) =
        ExecOutcome.valueError "Unknown flag detected: ['--frobnicate']" ∧
      ∀ f, executeDispatch (some (⟨some "run", false⟩, ["--frobnicate"])) ≠
        ExecOutcome.dispatch f) ∧
    executeDispatch none = ExecOutcome.exit (-1) :=
  C6_unknown_flags_raise ⟨some "run", false⟩ ["--frobnicate"] |>.1
    (by decide) |>.1 ▸
    ⟨(C6_unknown_flags_raise ⟨some "run", false⟩ ["--frobnicate"]).1 (by decide),
      (C6_unknown_flags_raise ⟨some "run", false⟩ ["--frobnicate"]).2⟩

/-! ## C7 -/

/-- C7: the body of `antsRegistrationSyNQuick` returns exactly the
5-tuple of the five fixed output names resolved against the working
directory, in source order, independently of both input images — though
in the repository the surrounding module's unterminated docstring (four
closing quotes) makes the module fail to import, so the function can
never actually run. -/
theorem C7_syn_quick_fixed_paths
    (cwd fixe moving fixe' moving' : String) :
    antsRegistrationSyNQuick cwd fixe moving =
      (osPathAbspath cwd "SyN_QuickWarped.nii.gz",
       osPathAbspath cwd "SyN_Quick0GenericAffine.mat",
       osPathAbspath cwd "SyN_Quick1Warp.nii.gz",
       osPathAbspath cwd "SyN_QuickInverseWarped.nii.gz",
       osPathAbspath cwd "SyN_Quick1InverseWarp.nii.gz") ∧
    antsRegistrationSyNQuick cwd fixe moving =
      antsRegistrationSyNQuick cwd fixe' moving' ∧
    antsRegistrationSyNQuick "/work" "fixed.nii.gz" "moving.nii.gz" =
      ("/work/SyN_QuickWarped.nii.gz",
       "/work/SyN_Quick0GenericAffine.mat",
       "/work/SyN_Quick1Warp.nii.gz",
       "/work/SyN_QuickInverseWarped.nii.gz",
       "/work/SyN_Quick1InverseWarp.nii.gz") :=
  ⟨rfl, rfl, by decide⟩

/-! ## C9 -/

theorem takeUntilUnderscore_append (p s : List Char) (hp : '_' ∉ p) :
    takeUntilUnderscore (p ++ '_' :: s) = p := by
  induction p with
  | nil => simp [takeUntilUnderscore]
  | cons c cs ih =>
      rw [List.mem_cons, not_or] at hp
      simp only [List.cons_append, takeUntilUnderscore, List.append_eq]
      rw [if_neg (fun h => hp.1 h.symm), ih hp.2]

theorem dropThroughUnderscore_append (p s : List Char) (hp : '_' ∉ p) :
    dropThroughUnderscore (p ++ '_' :: s) = s := by
  induction p with
  | nil => simp [dropThroughUnderscore]
  | cons c cs ih =>
      rw [List.mem_cons, not_or] at hp
      simp only [List.cons_append, dropThroughUnderscore, List.append_eq]
      rw [if_neg (fun h => hp.1 h.symm), ih hp.2]

theorem data_mkImageId (p s : String) :
    (mkImageId p s).data = p.data ++ '_' :: s.data := by
  simp [mkImageId, String.data_append]

theorem participantOf_mkImageId (p s : String) (hp : '_' ∉ p.data) :
    participantOf (mkImageId p s) = p := by
  unfold participantOf
  rw [data_mkImageId, takeUntilUnderscore_append _ _ hp]

theorem sessionOf_mkImageId (p s : String) (hp : '_' ∉ p.data) :
    sessionOf (mkImageId p s) = s := by
  unfold sessionOf
  rw [data_mkImageId, dropThroughUnderscore_append _ _ hp]

theorem clinica_file_filter_zip (hasFile : String → String → Bool)
    (subs sess : List String) :
    ((clinica_file_filter hasFile subs sess).1.zip
      (clinica_file_filter hasFile subs sess).2) =
    (subs.zip sess).filter (fun p => hasFile p.1 p.2) := by
  unfold clinica_file_filter
  simp [List.zip_map']

theorem extract_zip (ids : List String) :
    ((extract_subjects_sessions_from_filename ids).1.zip
      (extract_subjects_sessions_from_filename ids).2) =
    ids.map (fun i => (participantOf i, sessionOf i)) := by
  unfold extract_subjects_sessions_from_filename
  rw [List.zip_map']

/-- C9: after the subject/session reassignments of `_build_input_node`,
no remaining subject/session pair has an image id among the
already-processed ids: every pair of the resulting zipped lists recombines
to an id outside `processedIds`, for BIDS participant labels (which
contain no underscore). -/
theorem C9_no_processed_pair_remains (processedIds : List String)
    (hasFile : String → String → Bool) (subjects sessions : List String)
    (hsub : ∀ p ∈ subjects, '_' ∉ p.data) :
    ∀ pr ∈ ((buildInputNodeSubjectsSessions processedIds hasFile subjects
          sessions).1.zip
        (buildInputNodeSubjectsSessions processedIds hasFile subjects
          sessions).2),
      mkImageId pr.1 pr.2 ∉ processedIds := by
  intro pr hpr
  unfold buildInputNodeSubjectsSessions at hpr
  rw [clinica_file_filter_zip] at hpr
  have hpr' := (List.mem_filter.1 hpr).1
  by_cases hlen : processedIds.length > 0
  · simp only [hlen, if_true] at hpr'
    rw [extract_zip] at hpr'
    obtain ⟨i, hi, hpr_eq⟩ := List.mem_map.1 hpr'
    have hi' := List.mem_dedup.1 hi
    have hnotmem : i ∉ processedIds := by
      have := (List.mem_filter.1 hi').2
      exact of_decide_eq_true this
    have hin : i ∈ (subjects.zip sessions).map (fun p => mkImageId p.1 p.2) :=
      (List.mem_filter.1 hi').1
    obtain ⟨q, hq, hq_eq⟩ := List.mem_map.1 hin
    have hq1 : q.1 ∈ subjects := (List.of_mem_zip hq).1
    have hclean := hsub q.1 hq1
    have h1 : participantOf i = q.1 := by
      rw [← hq_eq]; exact participantOf_mkImageId _ _ hclean
    have h2 : sessionOf i = q.2 := by
      rw [← hq_eq]; exact sessionOf_mkImageId _ _ hclean
    rw [← hpr_eq]
    simpa [h1, h2, hq_eq] using hnotmem
  · simp only [hlen, if_false] at hpr'
    have hempty : processedIds = [] := by
      cases processedIds with
      | nil => rfl
      | cons a t => exact absurd (Nat.succ_pos t.length) hlen
    rw [hempty]
    exact List.not_mem_nil _

/-- C9 witness: with one already-processed id `sub-01_ses-M000`, original
pairs `(sub-01, ses-M000)` and `(sub-02, ses-M006)`, and every anat file
present, the rebuilt pairs recombine to ids outside the processed
list (only `sub-02_ses-M006` remains). -/
theorem C9_witness :
    (∀ p ∈ (["sub-01", "sub-02"] : List String), '_' ∉ p.data) ∧
    ∀ pr ∈ ((buildInputNodeSubjectsSessions ["sub-01_ses-M000"]
          (fun _ _ => true) ["sub-01", "sub-02"]
          ["ses-M000", "ses-M006"]).1.zip
        (buildInputNodeSubjectsSessions ["sub-01_ses-M000"]
          (fun _ _ => true) ["sub-01", "sub-02"]
          ["ses-M000", "ses-M006"]).2),
      mkImageId pr.1 pr.2 ∉ ["sub-01_ses-M000"] :=
  ⟨by decide,
    C9_no_processed_pair_remains ["sub-01_ses-M000"] (fun _ _ => true)
      ["sub-01", "sub-02"] ["ses-M000", "ses-M006"] (by decide)⟩

/-! ## C10 -/

/-- C10: `get_rigid` returns a path exactly when the `.mat` files found
under the hard-coded `CAPSr` directory contain a unique match of the
pattern built from the file name with `_T1w` removed; it then returns
that unique path, which is one of the found files and does match; with
zero or several matches it raises `ValueError`. -/
theorem C10_get_rigid_unique_match (fs : RigidFS) (fname : String) :
    (∀ m, (fs.rglobMat CAPSr).filter
        (fun p => fs.search (rigidPattern fname) p) = [m] →
      get_rigid fs fname = Except.ok m) ∧
    (∀ m, get_rigid fs fname = Except.ok m →
      (fs.rglobMat CAPSr).filter
          (fun p => fs.search (rigidPattern fname) p) = [m] ∧
        m ∈ fs.rglobMat CAPSr ∧ fs.search (rigidPattern fname) m = true) ∧
    (((fs.rglobMat CAPSr).filter
        (fun p => fs.search (rigidPattern fname) p)).length ≠ 1 →
      ∃ e, get_rigid fs fname = Except.error e) := by
  have hdef : get_rigid fs fname =
      match (fs.rglobMat CAPSr).filter
          (fun p => fs.search (rigidPattern fname) p) with
      | [m] => Except.ok m
      | l => Except.error (l, rigidPattern fname) := by
    unfold get_rigid
    rfl
  refine ⟨fun m hm => ?_, fun m hm => ?_, fun hm => ?_⟩
  · rw [hdef, hm]
  · rw [hdef] at hm
    rcases hfil : (fs.rglobMat CAPSr).filter
        (fun p => fs.search (rigidPattern fname) p) with _ | ⟨a, _ | ⟨b, t⟩⟩
    · rw [hfil] at hm; exact absurd hm (by simp)
    · rw [hfil] at hm
      have ham : a = m := Except.ok.inj hm
      subst ham
      have hmem : a ∈ (fs.rglobMat CAPSr).filter
          (fun p => fs.search (rigidPattern fname) p) := by
        rw [hfil]; exact List.mem_singleton_self a
      have hmem' := List.mem_filter.1 hmem
      exact ⟨rfl, hmem'.1, hmem'.2⟩
    · rw [hfil] at hm; exact absurd hm (by simp)
  · rw [hdef]
    rcases hfil : (fs.rglobMat CAPSr).filter
        (fun p => fs.search (rigidPattern fname) p) with _ | ⟨a, _ | ⟨b, t⟩⟩
    · exact ⟨_, rfl⟩
    · rw [hfil] at hm; simp at hm
    · exact ⟨_, rfl⟩

/-- C10 witness: with two `.mat` files found under `CAPSr` of which
exactly one contains the `sub-ADNI002S0413_ses-M12` stem (the oracle
being containment of the pattern's literal prefix), `get_rigid` on
`sub-ADNI002S0413_ses-M12_T1w.nii.gz` returns that unique path. -/
theorem C10_witness :
    ((⟨fun _ => ["/caps/a/sub-ADNI002S0413_ses-M12.nii.gz_rigid.mat",
          "/caps/b/sub-OTHER_ses-M00.nii.gz_rigid.mat"],
        fun pattern p =>
          charsInfix (takeUntilUnderscore pattern.data)
            p.data⟩ : RigidFS).rglobMat CAPSr).filter
        (fun p => (⟨fun _ => ["/caps/a/sub-ADNI002S0413_ses-M12.nii.gz_rigid.mat",
            "/caps/b/sub-OTHER_ses-M00.nii.gz_rigid.mat"],
          fun pattern q =>
            charsInfix (takeUntilUnderscore pattern.data)
              q.data⟩ : RigidFS).search
          (rigidPattern "sub-ADNI002S0413_ses-M12_T1w.nii.gz") p) =
      ["/caps/a/sub-ADNI002S0413_ses-M12.nii.gz_rigid.mat"] ∧
    get_rigid
      ⟨fun _ => ["/caps/a/sub-ADNI002S0413_ses-M12.nii.gz_rigid.mat",
          "/caps/b/sub-OTHER_ses-M00.nii.gz_rigid.mat"],
        fun pattern p =>
          charsInfix (takeUntilUnderscore pattern.data)
            p.data⟩
      "sub-ADNI002S0413_ses-M12_T1w.nii.gz" =
      Except.ok "/caps/a/sub-ADNI002S0413_ses-M12.nii.gz_rigid.mat" :=
  ⟨by decide,
    (C10_get_rigid_unique_match _ "sub-ADNI002S0413_ses-M12_T1w.nii.gz").1
      "/caps/a/sub-ADNI002S0413_ses-M12.nii.gz_rigid.mat" (by decide)⟩

end Clinica
